import Mathlib

/-!
Shallow embedding of the go-default library (github.com/exc-works/go-default):
a reflection-driven engine that fills zero-valued struct fields from their
`default:"..."` struct tags.  Translated from the current revision of
`default.go` (`Struct`, `fillStruct`, `fillSome`, `applySetters`, `isDefault`,
`setDefault`, the five built-in setters, `path`).  Go values are embedded as
the inductive `GoValue`; in-place reflection writes become value-returning
functions; Go `error` results become `Option GoError`.
-/

namespace GoDefault

/-- Calendar timestamp, the embedding of `time.Time` (UTC, second precision;
the repository only exercises whole-second UTC timestamps).  The zero value
of `time.Time` is January 1, year 1, 00:00:00 UTC. -/
structure DateTime where
  year : Nat
  month : Nat
  day : Nat
  hour : Nat
  minute : Nat
  second : Nat
deriving DecidableEq, Repr

/-- Zero value of `time.Time` (`time.Time.IsZero` compares against it). -/
def DateTime.zero : DateTime := ⟨1, 1, 1, 0, 0, 0⟩

/-- Embedding of the Go values the engine manipulates, one constructor per
field shape exercised by the library:
scalar kinds (`string`, `int`, `uint`, `float64` — modelled exactly on the
decimal fragment as rationals —, `bool`), `time.Duration` (a named `int64`,
in nanoseconds), `time.Time`, `*url.URL` (nil or a parsed URL carried as its
text), `[]byte`, `*big.Int` (a pointer type implementing
`encoding.TextUnmarshaler`), a generic pointer `*T`, a struct, and `chan int`
(an example of a kind none of the enumerated cases cover).
`ptr elemZero v` carries the zero value of the pointee type — what
`reflect.New(field.Type.Elem())` allocates — so that a nil pointer still
knows its element type.  A struct field is a triple
`(name, tag, value)` where `tag` is the result of
`field.Tag.Get(cfg.TagName)` for that field. -/
inductive GoValue where
  | str (s : String)
  | intv (i : Int)
  | uintv (n : Nat)
  | floatv (x : Rat)
  | boolv (b : Bool)
  | durv (ns : Int)
  | timev (t : DateTime)
  | urlv (u : Option String)
  | bytesv (bs : List Nat)
  | bigIntPtr (v : Option Int)
  | ptr (elemZero : GoValue) (v : Option GoValue)
  | structv (fields : List (String × String × GoValue))
  | chanInt

/-- A struct field as the walker sees it: declared name, the text of its
`default` tag (empty when the tag is absent), and its current value. -/
abbrev GoField := String × String × GoValue

/-- Errors returned by the engine, one constructor per distinct `fmt.Errorf`
shape in the source (each carries exactly the data interpolated into the
message): `ErrNotPointer`; "cannot set default value for PATH, parse TEXT to
TYPE failed"; "... decode TEXT to TYPE failed" (ByteSliceSetter); "...
unmarshal TEXT failed" (TextUnmarshalerSetter); "cannot set default value for
PATH, no suitable default setter for TYPE" (the `setDefault` fallthrough). -/
inductive GoError where
  | notPointer
  | conversionFailed (path text ty : String)
  | decodeFailed (path text ty : String)
  | unmarshalFailed (path text : String)
  | unsupportedSetter (path ty : String)
deriving DecidableEq, Repr

/-- Go type string (`reflect.Type.String()`) for each embedded shape, as it
appears interpolated in the source's error messages. -/
def typeString : GoValue → String
  | .str _ => "string"
  | .intv _ => "int"
  | .uintv _ => "uint"
  | .floatv _ => "float64"
  | .boolv _ => "bool"
  | .durv _ => "time.Duration"
  | .timev _ => "time.Time"
  | .urlv _ => "*url.URL"
  | .bytesv _ => "[]uint8"
  | .bigIntPtr _ => "*big.Int"
  | .ptr ez _ => "*" ++ typeString ez
  | .structv _ => "struct"
  | .chanInt => "chan int"

/-! ### Models of the Go standard-library parsers the setters call.
These are external collaborators of the engine (strconv, time, net/url,
encoding/hex, encoding/base64, math/big); each is modelled executably on the
fragment the repository exercises, as documented per function. -/

/-- Value of a decimal digit character. -/
def digitVal (c : Char) : Nat := c.toNat - 48

/-- Value of a nonempty string of decimal digits. -/
def decDigitsVal (cs : List Char) : Nat := cs.foldl (fun a c => a * 10 + digitVal c) 0

/-- Models `strconv.ParseUint(s, 10, 64)`: decimal digits only (no sign), value
must fit in 64 bits.  (Underscore separators, only legal for base 0, are out
of scope.) -/
def goParseUint (s : String) : Option Nat :=
  let cs := s.toList
  if cs.isEmpty then none
  else if cs.all Char.isDigit then
    let n := decDigitsVal cs
    if n < 2 ^ 64 then some n else none
  else none

/-- Models `strconv.ParseInt(s, 10, 64)`: optional sign, decimal digits, value
in `[-2^63, 2^63 - 1]`. -/
def goParseInt (s : String) : Option Int :=
  let cs := s.toList
  let p : Bool × List Char :=
    match cs with
    | '+' :: rest => (false, rest)
    | '-' :: rest => (true, rest)
    | _ => (false, cs)
  let neg := p.1
  let ds := p.2
  if ds.isEmpty then none
  else if ds.all Char.isDigit then
    let v : Int := if neg then -(decDigitsVal ds : Int) else (decDigitsVal ds : Int)
    if -(2 ^ 63) ≤ v ∧ v ≤ 2 ^ 63 - 1 then some v else none
  else none

/-- Models `strconv.ParseBool`: exactly the twelve literals Go accepts. -/
def goParseBool (s : String) : Option Bool :=
  if s = "1" ∨ s = "t" ∨ s = "T" ∨ s = "true" ∨ s = "TRUE" ∨ s = "True" then some true
  else if s = "0" ∨ s = "f" ∨ s = "F" ∨ s = "false" ∨ s = "FALSE" ∨ s = "False" then some false
  else none

/-- Models `strconv.ParseFloat(s, 64)` on the finite decimal fragment
(`sign? digits* [. digits*] [e sign? digits+]`, at least one mantissa digit),
with the value taken exactly as a rational (the repository's tags are all
exactly representable; rounding to binary64, hex floats, and Inf/NaN are out
of scope). -/
def goParseFloat (s : String) : Option Rat :=
  let cs := s.toList
  let p : Bool × List Char :=
    match cs with
    | '+' :: rest => (false, rest)
    | '-' :: rest => (true, rest)
    | _ => (false, cs)
  let neg := p.1
  let body := p.2
  let mant := body.takeWhile (fun c => !(c == 'e' || c == 'E'))
  let rest := body.dropWhile (fun c => !(c == 'e' || c == 'E'))
  let ip := mant.takeWhile Char.isDigit
  let afterInt := mant.dropWhile Char.isDigit
  let fracOk : Bool × List Char :=
    match afterInt with
    | [] => (true, [])
    | '.' :: fp => (fp.all Char.isDigit, fp)
    | _ => (false, [])
  let fp := fracOk.2
  if !fracOk.1 then none
  else if ip.isEmpty ∧ fp.isEmpty then none
  else if !(ip.all Char.isDigit) then none
  else
    let num : Int := (decDigitsVal ip * 10 ^ fp.length + decDigitsVal fp : Nat)
    let den : Nat := 10 ^ fp.length
    let withExp : Option Rat :=
      match rest with
      | [] => some (mkRat num den)
      | _ :: es =>
        let q : Bool × List Char :=
          match es with
          | '+' :: r => (false, r)
          | '-' :: r => (true, r)
          | _ => (false, es)
        if q.2.isEmpty ∨ !(q.2.all Char.isDigit) then none
        else
          let e := decDigitsVal q.2
          some (if q.1 then mkRat num (den * 10 ^ e) else mkRat (num * 10 ^ e) den)
    withExp.map (fun r => if neg then -r else r)

/-- Nanoseconds per duration unit, as in Go's `time.ParseDuration` unit table
(the `µs`/`μs` aliases of `us` are out of scope). -/
def durUnitNanos (u : List Char) : Option Int :=
  match u with
  | ['n', 's'] => some 1
  | ['u', 's'] => some 1000
  | ['m', 's'] => some 1000000
  | ['s'] => some 1000000000
  | ['m'] => some 60000000000
  | ['h'] => some 3600000000000
  | _ => none

/-- One `number unit` leg of a duration at a time; fuel bounds the recursion
by the input length. -/
def durLoop : Nat → List Char → Option Int
  | _, [] => some 0
  | 0, _ => none
  | fuel + 1, cs =>
    let ds := cs.takeWhile Char.isDigit
    if ds.isEmpty then none
    else
      let rest := cs.dropWhile Char.isDigit
      let us := rest.takeWhile (fun c => !c.isDigit)
      match durUnitNanos us, durLoop fuel (rest.dropWhile (fun c => !c.isDigit)) with
      | some unit, some acc => some ((decDigitsVal ds : Int) * unit + acc)
      | _, _ => none

/-- Models `time.ParseDuration` on the integer fragment: optional sign, the
special case `"0"`, otherwise one or more `digits unit` legs (fractional
numbers and overflow saturation are out of scope).  Result in nanoseconds. -/
def goParseDuration (s : String) : Option Int :=
  let cs := s.toList
  let p : Bool × List Char :=
    match cs with
    | '-' :: rest => (true, rest)
    | '+' :: rest => (false, rest)
    | _ => (false, cs)
  let neg := p.1
  let body := p.2
  if body = ['0'] then some 0
  else if body.isEmpty then none
  else (durLoop (body.length + 1) body).map (fun n => if neg then -n else n)

/-- Whether a year is a leap year (Gregorian rule). -/
def isLeapYear (y : Nat) : Bool := decide ((y % 4 = 0 ∧ y % 100 ≠ 0) ∨ y % 400 = 0)

/-- Number of days in a month. -/
def daysInMonth (y m : Nat) : Nat :=
  if m = 2 then (if isLeapYear y then 29 else 28)
  else if m = 4 ∨ m = 6 ∨ m = 9 ∨ m = 11 then 30
  else 31

/-- Two decimal digit characters as a number. -/
def d2 (a b : Char) : Option Nat :=
  if a.isDigit ∧ b.isDigit then some (digitVal a * 10 + digitVal b) else none

/-- Four decimal digit characters as a number. -/
def d4 (a b c d : Char) : Option Nat :=
  if a.isDigit ∧ b.isDigit ∧ c.isDigit ∧ d.isDigit then
    some (((digitVal a * 10 + digitVal b) * 10 + digitVal c) * 10 + digitVal d)
  else none

/-- Range-check the parsed components the way `time.Parse` does (day checked
against the month's length). -/
def mkDateTime (y mo d h mi s : Nat) : Option DateTime :=
  if 1 ≤ mo ∧ mo ≤ 12 ∧ 1 ≤ d ∧ d ≤ daysInMonth y mo ∧ h ≤ 23 ∧ mi ≤ 59 ∧ s ≤ 59 then
    some ⟨y, mo, d, h, mi, s⟩
  else none

/-- Models `time.Parse` with layout `time.RFC3339` on whole-second UTC inputs:
`YYYY-MM-DDTHH:MM:SSZ` (fractional seconds and numeric offsets are out of
scope). -/
def parseRFC3339 (s : String) : Option DateTime :=
  match s.toList with
  | [y1, y2, y3, y4, '-', m1, m2, '-', a1, a2, 'T', h1, h2, ':', n1, n2, ':', s1, s2, 'Z'] =>
    match d4 y1 y2 y3 y4, d2 m1 m2, d2 a1 a2, d2 h1 h2, d2 n1 n2, d2 s1 s2 with
    | some y, some mo, some d, some h, some mi, some sec => mkDateTime y mo d h mi sec
    | _, _, _, _, _, _ => none
  | _ => none

/-- The three-letter weekday names of `time.RFC1123` (Go parses the weekday
but does not check it against the date). -/
def weekdayNames : List String := ["Mon", "Tue", "Wed", "Thu", "Fri", "Sat", "Sun"]

/-- Month number from its three-letter English name. -/
def monthNum (m : String) : Option Nat :=
  match m with
  | "Jan" => some 1
  | "Feb" => some 2
  | "Mar" => some 3
  | "Apr" => some 4
  | "May" => some 5
  | "Jun" => some 6
  | "Jul" => some 7
  | "Aug" => some 8
  | "Sep" => some 9
  | "Oct" => some 10
  | "Nov" => some 11
  | "Dec" => some 12
  | _ => none

/-- Models `time.Parse` with layout `time.RFC1123` on UTC inputs:
`Www, DD Mmm YYYY HH:MM:SS UTC` (other zone names are out of scope). -/
def parseRFC1123 (s : String) : Option DateTime :=
  match s.toList with
  | [w1, w2, w3, ',', ' ', a1, a2, ' ', b1, b2, b3, ' ', y1, y2, y3, y4, ' ',
     h1, h2, ':', n1, n2, ':', s1, s2, ' ', 'U', 'T', 'C'] =>
    if weekdayNames.contains (String.mk [w1, w2, w3]) then
      match monthNum (String.mk [b1, b2, b3]), d2 a1 a2, d4 y1 y2 y3 y4,
            d2 h1 h2, d2 n1 n2, d2 s1 s2 with
      | some mo, some d, some y, some h, some mi, some sec => mkDateTime y mo d h mi sec
      | _, _, _, _, _, _ => none
    else none
  | _ => none

/-- The `time.RFC3339` layout string. -/
def rfc3339Layout : String := "2006-01-02T15:04:05Z07:00"

/-- The `time.RFC1123` layout string. -/
def rfc1123Layout : String := "Mon, 02 Jan 2006 15:04:05 MST"

/-- Models `time.Parse(layout, value)` for the two layouts the repository
exercises (`time.RFC3339`, the default, and `time.RFC1123`, the README's
custom-layout example); other layout strings are out of scope. -/
def goTimeParse (layout value : String) : Option DateTime :=
  if layout = rfc3339Layout then parseRFC3339 value
  else if layout = rfc1123Layout then parseRFC1123 value
  else none

/-- Models `net/url.Parse`: Go's parser accepts any string free of ASCII
control characters (the parsed URL is carried as its text). -/
def goURLParse (s : String) : Option String :=
  if s.toList.any (fun c => c.toNat < 32 || c.toNat == 127) then none else some s

/-- Value of a hexadecimal digit character. -/
def hexVal (c : Char) : Option Nat :=
  if c.isDigit then some (digitVal c)
  else if 'a' ≤ c ∧ c ≤ 'f' then some (c.toNat - 87)
  else if 'A' ≤ c ∧ c ≤ 'F' then some (c.toNat - 55)
  else none

/-- Models `encoding/hex.DecodeString`: pairs of hex digits, even length. -/
def hexDecode : List Char → Option (List Nat)
  | [] => some []
  | a :: b :: rest =>
    match hexVal a, hexVal b, hexDecode rest with
    | some x, some y, some tl => some ((x * 16 + y) :: tl)
    | _, _, _ => none
  | _ => none

/-- Value of a standard base64 alphabet character. -/
def b64Val (c : Char) : Option Nat :=
  if 'A' ≤ c ∧ c ≤ 'Z' then some (c.toNat - 65)
  else if 'a' ≤ c ∧ c ≤ 'z' then some (c.toNat - 71)
  else if c.isDigit then some (c.toNat + 4)
  else if c = '+' then some 62
  else if c = '/' then some 63
  else none

/-- Models `encoding/base64.StdEncoding.DecodeString`: quads of alphabet
characters, `=` padding only in the final quad (embedded newlines are out of
scope). -/
def b64Decode : List Char → Option (List Nat)
  | [] => some []
  | a :: b :: c :: d :: rest =>
    match b64Val a, b64Val b with
    | some va, some vb =>
      if c = '=' ∧ d = '=' ∧ rest.isEmpty then
        some [va * 4 + vb / 16]
      else if d = '=' ∧ rest.isEmpty then
        match b64Val c with
        | some vc => some [va * 4 + vb / 16, vb % 16 * 16 + vc / 4]
        | none => none
      else
        match b64Val c, b64Val d, b64Decode rest with
        | some vc, some vd, some tl =>
          some ((va * 4 + vb / 16) :: (vb % 16 * 16 + vc / 4) :: (vc % 4 * 64 + vd) :: tl)
        | _, _, _ => none
    | _, _ => none
  | _ => none

/-- Models `math/big.Int.UnmarshalText` (base-10 `SetString`): optional sign
followed by decimal digits. -/
def goBigIntFromText (s : String) : Option Int :=
  let cs := s.toList
  let p : Bool × List Char :=
    match cs with
    | '+' :: rest => (false, rest)
    | '-' :: rest => (true, rest)
    | _ => (false, cs)
  if p.2.isEmpty then none
  else if p.2.all Char.isDigit then
    some (if p.1 then -(decDigitsVal p.2 : Int) else (decDigitsVal p.2 : Int))
  else none

/-- Models `strings.Split(s, ";")`: non-empty list of the `;`-separated
pieces. -/
def splitOnSemi : List Char → List (List Char)
  | [] => [[]]
  | ';' :: rest => [] :: splitOnSemi rest
  | c :: rest =>
    match splitOnSemi rest with
    | g :: gs => (c :: g) :: gs
    | [] => [[c]]

/-- String-level wrapper for `splitOnSemi`. -/
def splitSemi (s : String) : List String := (splitOnSemi s.toList).map String.mk

/-! ### The engine (translated from `default.go`). -/

/-- Result of offering a field to one setter, the embedding of the Go pair
`(set bool, err error)` together with the (possibly mutated) field value:
`noMatch` is `(false, nil)` with the value untouched — every built-in setter
leaves the value alone when it reports no match —, `done v` is `(true, nil)`,
and `fail v e` is a non-nil error with `v` the value the setter left behind
(`TextUnmarshalerSetter` allocates before unmarshalling, so on its error path
the freshly allocated pointer persists). -/
inductive SetterOut where
  | noMatch
  | done (v : GoValue)
  | fail (v : GoValue) (e : GoError)

/-- `DurationSetter`: matches exactly `time.Duration`; parses the tag with
`time.ParseDuration`. -/
def DurationSetter (p : String) (v : GoValue) (s : String) : SetterOut :=
  match v with
  | .durv _ =>
    match goParseDuration s with
    | some d => .done (.durv d)
    | none => .fail v (.conversionFailed p s "time.Duration")
  | _ => .noMatch

/-- `TimeSetter`: matches exactly `time.Time`; a non-zero value is reported
as already set (match with no write); otherwise the tag is split on `;`, the
second piece (default `time.RFC3339`) is the layout for `time.Parse`. -/
def TimeSetter (p : String) (v : GoValue) (s : String) : SetterOut :=
  match v with
  | .timev t =>
    if t ≠ DateTime.zero then .done v
    else
      let parts := splitSemi s
      let parts := if parts.length = 1 then parts ++ [rfc3339Layout] else parts
      match parts with
      | v0 :: l1 :: _ =>
        match goTimeParse l1 v0 with
        | some dt => .done (.timev dt)
        | none => .fail v (.conversionFailed p s "time.Time")
      | _ => .fail v (.conversionFailed p s "time.Time")
  | _ => .noMatch

/-- `URLSetter`: matches exactly `*url.URL`; non-nil is reported as already
set; otherwise the tag is parsed with `url.Parse`. -/
def URLSetter (p : String) (v : GoValue) (s : String) : SetterOut :=
  match v with
  | .urlv u =>
    match u with
    | some _ => .done v
    | none =>
      match goURLParse s with
      | some r => .done (.urlv (some r))
      | none => .fail v (.conversionFailed p s "*url.URL")
  | _ => .noMatch

/-- `ByteSliceSetter`: matches exactly `[]byte`; non-empty is reported as
already set; an empty tag sets nothing; a `0x` prefix selects hex decoding,
anything else standard base64. -/
def ByteSliceSetter (p : String) (v : GoValue) (s : String) : SetterOut :=
  match v with
  | .bytesv bs =>
    if bs.length > 0 then .done v
    else if s = "" then .done v
    else
      match s.toList with
      | '0' :: 'x' :: hx =>
        match hexDecode hx with
        | some b => .done (.bytesv b)
        | none => .fail v (.decodeFailed p s "[]uint8")
      | cs =>
        match b64Decode cs with
        | some b => .done (.bytesv b)
        | none => .fail v (.decodeFailed p s "[]uint8")
  | _ => .noMatch

/-- `TextUnmarshalerSetter`: matches pointer kinds whose type implements
`encoding.TextUnmarshaler` — among the embedded shapes only `*big.Int`
(`*url.URL` does not implement it, and the generic pointers the repository
exercises, `*int`, `*uint`, `*float64`, `*time.Duration`, `*Nested`, do not
either).  A non-nil pointer is reported as already set; a nil pointer is
first allocated (`reflect.New`), then `UnmarshalText` runs — so on a parse
error the allocated zero value persists in the field. -/
def TextUnmarshalerSetter (p : String) (v : GoValue) (s : String) : SetterOut :=
  match v with
  | .bigIntPtr pv =>
    match pv with
    | some _ => .done v
    | none =>
      match goBigIntFromText s with
      | some i => .done (.bigIntPtr (some i))
      | none => .fail (.bigIntPtr (some 0)) (.unmarshalFailed p s)
  | _ => .noMatch

/-- The built-in setters, in registry order (`DefaultSetters` in the
source). -/
inductive SetterId where
  | duration
  | time
  | url
  | byteSlice
  | textUnmarshaler
deriving DecidableEq, Repr

/-- Dispatch a `SetterId` to the corresponding built-in setter. -/
def runSetter : SetterId → String → GoValue → String → SetterOut
  | .duration, p, v, s => DurationSetter p v s
  | .time, p, v, s => TimeSetter p v s
  | .url, p, v, s => URLSetter p v s
  | .byteSlice, p, v, s => ByteSliceSetter p v s
  | .textUnmarshaler, p, v, s => TextUnmarshalerSetter p v s

/-- Engine configuration.  The `TagName` lookup is already folded into each
field's `tag` component (`field.Tag.Get(cfg.TagName)`), so the configuration
carries the setter list; the setters are drawn from the built-in registry
(the claims under verification all run the default configuration). -/
structure Config where
  setters : List SetterId

/-- The default configuration `Struct` assembles: tag name `"default"` and
the five built-in setters in order. -/
def defaultConfig : Config :=
  ⟨[.duration, .time, .url, .byteSlice, .textUnmarshaler]⟩

/-- `applySetters`: offer the field to each setter in order; stop at the
first error or the first match. -/
def applySetters (p : String) (v : GoValue) (s : String) : List SetterId → SetterOut
  | [] => .noMatch
  | st :: rest =>
    match runSetter st p v s with
    | .noMatch => applySetters p v s rest
    | .done v' => .done v'
    | .fail v' e => .fail v' e

/-- `path`: join a field name onto the running dotted path. -/
def path (deepName name : String) : String :=
  if deepName = "" then name else deepName ++ "." ++ name

/-- `isDefault`: the eligibility test, keyed on the field's reflect kind.
Scalar kinds (string, the integer kinds — which include `time.Duration`, a
named `int64` —, floats, bool) are eligible iff `IsZero`; struct kinds
(which include `time.Time`) and pointer kinds are always eligible; slices
(`[]byte`) and maps are eligible iff empty; every other kind (e.g. `chan
int`) falls to the `default:` arm, which returns `true`. -/
def isDefault : GoValue → Bool
  | .str s => s == ""
  | .intv i => i == 0
  | .uintv n => n == 0
  | .floatv x => x == 0
  | .boolv b => b == false
  | .durv ns => ns == 0
  | .timev _ => true
  | .urlv _ => true
  | .bytesv bs => bs.isEmpty
  | .bigIntPtr _ => true
  | .ptr _ _ => true
  | .structv _ => true
  | .chanInt => true

/-- `setDefault`: the built-in scalar setter, keyed on the field's reflect
kind: strings verbatim, the integer kinds via `strconv.ParseInt` (this arm
also covers `time.Duration`, a named `int64`), unsigned kinds via
`ParseUint`, floats via `ParseFloat`, bool via `ParseBool`; every other kind
falls to the `default:` arm, the "no suitable default setter" error naming
the field path and the type. -/
def setDefault (p : String) (v : GoValue) (s : String) : GoValue × Option GoError :=
  match v with
  | .str _ => (.str s, none)
  | .intv _ =>
    match goParseInt s with
    | some i => (.intv i, none)
    | none => (v, some (.conversionFailed p s "int"))
  | .durv _ =>
    match goParseInt s with
    | some i => (.durv i, none)
    | none => (v, some (.conversionFailed p s "time.Duration"))
  | .uintv _ =>
    match goParseUint s with
    | some n => (.uintv n, none)
    | none => (v, some (.conversionFailed p s "uint"))
  | .floatv _ =>
    match goParseFloat s with
    | some x => (.floatv x, none)
    | none => (v, some (.conversionFailed p s "float64"))
  | .boolv _ =>
    match goParseBool s with
    | some b => (.boolv b, none)
    | none => (v, some (.conversionFailed p s "bool"))
  | _ => (v, some (.unsupportedSetter p (typeString v)))

mutual

/-- `fillStruct`: the source receives a pointer and branches on the pointee's
kind; the embedding receives the pointee and returns the updated pointee.
For a struct pointee it walks the declared fields; `time.Time` is a struct
kind whose fields carry no `default` tags, so its walk is a no-op.  For any
other pointee (`*int`, `*string`, ... — the comment in the source) the
pointee itself is tested for eligibility, offered to the setters, and
finally handed to the built-in scalar setter. -/
def fillStruct (deepName : String) (pointee : GoValue) (tagValue : String)
    (cfg : Config) : GoValue × Option GoError :=
  match pointee with
  | .structv fields =>
    let r := fillFields deepName cfg fields
    (.structv r.1, r.2)
  | .timev t => (.timev t, none)
  | v =>
    if isDefault v then
      match applySetters deepName v tagValue cfg.setters with
      | .fail v' e => (v', some e)
      | .done v' => (v', none)
      | .noMatch => setDefault deepName v tagValue
    else (v, none)

/-- The field loop of `fillStruct`: process the declared fields in order,
stopping at the first error (fields after it are left untouched, fields
before it keep the values they were given). -/
def fillFields (deepName : String) (cfg : Config) :
    List GoField → List GoField × Option GoError
  | [] => ([], none)
  | f :: rest =>
    let r := fillField deepName cfg f
    match r.2 with
    | some e => (r.1 :: rest, some e)
    | none =>
      let rr := fillFields deepName cfg rest
      (r.1 :: rr.1, rr.2)

/-- The body of the field loop for one field: skip it when the tag is absent,
skip it when ineligible, otherwise hand it to `fillSome` under the extended
path. -/
def fillField (deepName : String) (cfg : Config) (f : GoField) :
    GoField × Option GoError :=
  if f.2.1 = "" then (f, none)
  else if isDefault f.2.2 then
    let r := fillSome (path deepName f.1) f.2.2 f.2.1 cfg
    ((f.1, f.2.1, r.1), r.2)
  else (f, none)

/-- `fillSome`: offer the field to the setter registry; on no match, a
pointer field is allocated when nil (`reflect.New`) and recursed into, a
struct field is recursed into through its address, and anything else goes to
the built-in scalar setter.  The kind dispatch reads the field's static
type, so dispatching on the pre-registry value is exact; the registry only
leaves the value untouched on `noMatch`.  Among the embedded shapes
`*url.URL` and `*big.Int` are pointer kinds whose pointees (`url.URL`,
`big.Int`) are structs without `default` tags, so their recursion (after
allocation when nil) changes nothing; `time.Time` is a struct kind whose
walk is likewise a no-op. -/
def fillSome (p : String) (v : GoValue) (tagValue : String) (cfg : Config) :
    GoValue × Option GoError :=
  match applySetters p v tagValue cfg.setters with
  | .fail v' e => (v', some e)
  | .done v' => (v', none)
  | .noMatch =>
    match v with
    | .ptr ez pv =>
      match pv with
      | none =>
        let r := fillStruct p ez tagValue cfg
        (.ptr ez (some r.1), r.2)
      | some pt =>
        let r := fillStruct p pt tagValue cfg
        (.ptr ez (some r.1), r.2)
    | .structv fields =>
      let r := fillFields p cfg fields
      (.structv r.1, r.2)
    | .timev t => (.timev t, none)
    | .urlv pv => (.urlv (some (pv.getD "")), none)
    | .bigIntPtr pv => (.bigIntPtr (some (pv.getD 0)), none)
    | w => setDefault p w tagValue

end

/-- Outcome of one `Struct` call: success, an error return (carrying the
argument as the call left it — the engine mutates in place, so an erroring
call can leave a partial fill), or a Go runtime panic. -/
inductive RunResult where
  | ok (v : GoValue)
  | fail (v : GoValue) (e : GoError)
  | panicked (msg : String)

/-- The reflect panic message raised when the walk dereferences a nil
pointer: `value.Elem()` of a nil pointer is the zero `reflect.Value`, and
`.Field(i)` on it panics. -/
def nilDerefMsg : String := "reflect: call of reflect.Value.Field on zero Value"

/-- Struct kinds among the embedded shapes (`reflect.Struct`). -/
def isStructKind : GoValue → Bool
  | .structv _ => true
  | .timev _ => true
  | _ => false

/-- Whether a struct type declares at least one field with a non-empty
`default` tag (`time.Time`'s fields carry none). -/
def hasTaggedField : GoValue → Bool
  | .structv fs => fs.any (fun f => f.2.1 ≠ "")
  | _ => false

/-- `Struct`, the entry point: the checks `t.Kind() != reflect.Pointer` and
`t.Elem().Kind() != reflect.Struct` inspect only the static type of the
argument — never its value — and return `ErrNotPointer` before any field is
touched.  A non-nil pointer to a struct is walked by `fillStruct` with empty
path and empty tag.  A nil typed pointer to a struct passes the checks; the
walk then computes `value.Elem().Field(i)` at the first field with a
non-empty tag, which panics on a nil pointer (a struct with no tagged
fields completes the loop without touching the pointee).  `*url.URL` and
`*big.Int` are pointers to structs with no tagged fields, so they complete
trivially. -/
def Struct (input : GoValue) (cfg : Config) : RunResult :=
  match input with
  | .ptr ez pv =>
    if isStructKind ez then
      match pv with
      | some pt =>
        let r := fillStruct "" pt "" cfg
        match r.2 with
        | none => .ok (.ptr ez (some r.1))
        | some e => .fail (.ptr ez (some r.1)) e
      | none =>
        if hasTaggedField ez then .panicked nilDerefMsg else .ok input
    else .fail input .notPointer
  | .urlv u => .ok (.urlv u)
  | .bigIntPtr v => .ok (.bigIntPtr v)
  | _ => .fail input .notPointer

/-! ### Shape classes used by the claims. -/

/-- The plain scalar shapes of the built-in scalar setter's scalar arms:
string, signed and unsigned integers, float, bool. -/
def isPlainScalar : GoValue → Bool
  | .str _ => true
  | .intv _ => true
  | .uintv _ => true
  | .floatv _ => true
  | .boolv _ => true
  | _ => false

/-- Whether a field value already holds a non-zero / non-empty value in the
sense of the spec's frame condition (nested structs and generic pointers,
which the walker descends into unconditionally, are outside this class). -/
def preSet : GoValue → Bool
  | .str s => s != ""
  | .intv i => i != 0
  | .uintv n => n != 0
  | .floatv x => x != 0
  | .boolv b => b
  | .durv ns => ns != 0
  | .timev t => t != DateTime.zero
  | .urlv u => u.isSome
  | .bytesv bs => !bs.isEmpty
  | .bigIntPtr pv => pv.isSome
  | _ => false

/-- The shapes the eligibility test lets through even when pre-set, their
setters then reporting an already-set no-op: `time.Time` (struct kind),
`*url.URL` and `*big.Int` (pointer kinds). -/
def eligibleWhenPreSet : GoValue → Bool
  | .timev _ => true
  | .urlv _ => true
  | .bigIntPtr _ => true
  | _ => false

/-- Whether the argument's static type is a pointer whose element type is a
struct — the shape the entry-point check accepts. -/
def isPtrToStruct : GoValue → Bool
  | .ptr ez _ => isStructKind ez
  | .urlv _ => true
  | .bigIntPtr _ => true
  | _ => false

/-! ### Shared lemmas about the walker. -/

theorem applySetters_plainScalar (p s : String) (v : GoValue)
    (h : isPlainScalar v = true) :
    applySetters p v s defaultConfig.setters = .noMatch := by
  cases v <;> first | rfl | simp [isPlainScalar] at h

theorem applySetters_structv (p s : String) (gs : List GoField) :
    applySetters p (.structv gs) s defaultConfig.setters = .noMatch := rfl

theorem applySetters_ptr (p s : String) (ez : GoValue) (pv : Option GoValue) :
    applySetters p (.ptr ez pv) s defaultConfig.setters = .noMatch := rfl

theorem fillStruct_structv (d tv : String) (cfg : Config) (fs : List GoField) :
    fillStruct d (.structv fs) tv cfg
      = (.structv (fillFields d cfg fs).1, (fillFields d cfg fs).2) := rfl

theorem fillFields_nil (d : String) (cfg : Config) :
    fillFields d cfg [] = ([], none) := rfl

theorem fillFields_cons (d : String) (cfg : Config) (f : GoField) (rest : List GoField) :
    fillFields d cfg (f :: rest) =
      (match (fillField d cfg f).2 with
       | some e => ((fillField d cfg f).1 :: rest, some e)
       | none => ((fillField d cfg f).1 :: (fillFields d cfg rest).1, (fillFields d cfg rest).2)) := rfl

theorem fillField_unfold (d : String) (cfg : Config) (n t : String) (v : GoValue) :
    fillField d cfg (n, t, v) =
      (if t = "" then ((n, t, v), none)
       else if isDefault v then
        ((n, t, (fillSome (path d n) v t cfg).1), (fillSome (path d n) v t cfg).2)
       else ((n, t, v), none)) := rfl

/-- A field whose tag is absent is returned verbatim. -/
theorem fillField_no_tag (d : String) (cfg : Config) (n : String) (v : GoValue) :
    fillField d cfg (n, "", v) = ((n, "", v), none) := rfl

/-- The walk preserves the number of fields, also on the error path. -/
theorem fillFields_length (d : String) (cfg : Config) (fs : List GoField) :
    (fillFields d cfg fs).1.length = fs.length := by
  induction fs with
  | nil => rfl
  | cons f rest ih =>
    rw [fillFields_cons]
    cases (fillField d cfg f).2 <;> simp [ih]

/-- On a successful walk, each output field is the per-field result of its
input field. -/
theorem fillFields_none_get (d : String) (cfg : Config) (fs : List GoField)
    (h : (fillFields d cfg fs).2 = none) (i : Nat) :
    (fillFields d cfg fs).1.get? i = (fs.get? i).map (fun f => (fillField d cfg f).1) := by
  induction fs generalizing i with
  | nil => cases i <;> rfl
  | cons f rest ih =>
    rw [fillFields_cons] at h ⊢
    cases hf : (fillField d cfg f).2 with
    | some e => rw [hf] at h; simp at h
    | none =>
      rw [hf] at h
      dsimp only at h ⊢
      cases i with
      | zero => rfl
      | succ j => simpa using ih h j

/-- A walk that succeeds on a prefix continues into the remaining fields. -/
theorem fillFields_append (d : String) (cfg : Config) (pre pre' rest : List GoField)
    (h : fillFields d cfg pre = (pre', none)) :
    fillFields d cfg (pre ++ rest)
      = (pre' ++ (fillFields d cfg rest).1, (fillFields d cfg rest).2) := by
  induction pre generalizing pre' with
  | nil =>
    rw [fillFields_nil] at h
    cases h
    simp
  | cons f pfs ih =>
    rw [fillFields_cons] at h
    cases hf : (fillField d cfg f).2 with
    | some e => rw [hf] at h; simp at h
    | none =>
      rw [hf] at h
      dsimp only at h
      have h1 : pre' = (fillField d cfg f).1 :: (fillFields d cfg pfs).1 := by
        have := congrArg Prod.fst h
        simpa using this.symm
      have h2 : fillFields d cfg pfs = ((fillFields d cfg pfs).1, none) := by
        have := congrArg Prod.snd h
        dsimp only at this
        exact Prod.ext rfl this
      subst h1
      rw [List.cons_append, fillFields_cons]
      rw [hf]
      rw [ih _ h2]
      simp

/-- A zero-valued plain scalar field with a tag that parses is set to the
parsed value: the registry setters all skip plain scalar kinds, so the
built-in scalar setter runs. -/
theorem fillField_scalar_sets (d n t : String) (v w : GoValue)
    (htag : t ≠ "") (hsc : isPlainScalar v = true) (hzero : isDefault v = true)
    (hparse : setDefault (path d n) v t = (w, none)) :
    fillField d defaultConfig (n, t, v) = ((n, t, w), none) := by
  rw [fillField_unfold, if_neg htag, if_pos hzero]
  show ((n, t, (fillSome (path d n) v t defaultConfig).1),
        (fillSome (path d n) v t defaultConfig).2) = ((n, t, w), none)
  have hns := applySetters_plainScalar (path d n) t v hsc
  cases v <;> simp [isPlainScalar] at hsc <;>
    simp [fillSome, hns, hparse]

/-- Re-running the built-in scalar setter on the value it just produced
returns that value again: the parse depends only on the tag text and the
field's kind, which the write preserves. -/
theorem setDefault_idem (p p' t : String) (v w : GoValue)
    (hsc : isPlainScalar v = true)
    (hparse : setDefault p v t = (w, none)) :
    setDefault p' w t = (w, none) := by
  cases v <;> simp [isPlainScalar] at hsc <;> simp only [setDefault] at hparse ⊢
  case str s0 =>
    cases hparse; rfl
  case intv i =>
    cases hp : goParseInt t <;> rw [hp] at hparse <;> simp at hparse
    cases hparse; simp [setDefault, hp]
  case uintv m =>
    cases hp : goParseUint t <;> rw [hp] at hparse <;> simp at hparse
    cases hparse; simp [setDefault, hp]
  case floatv x =>
    cases hp : goParseFloat t <;> rw [hp] at hparse <;> simp at hparse
    cases hparse; simp [setDefault, hp]
  case boolv b =>
    cases hp : goParseBool t <;> rw [hp] at hparse <;> simp at hparse
    cases hparse; simp [setDefault, hp]

/-- The value a successful scalar fill writes is itself a plain scalar of the
same kind and is a fixed point of the per-field step. -/
theorem fillField_scalar_idem (d n t : String) (v w : GoValue)
    (htag : t ≠ "") (hsc : isPlainScalar v = true) (hzero : isDefault v = true)
    (hparse : setDefault (path d n) v t = (w, none)) :
    fillField d defaultConfig (n, t, w) = ((n, t, w), none) := by
  have hw : isPlainScalar w = true := by
    cases v <;> simp [isPlainScalar] at hsc <;> simp only [setDefault] at hparse
    case str s0 => cases hparse; rfl
    case intv i =>
      cases hp : goParseInt t <;> rw [hp] at hparse <;> simp at hparse
      cases hparse; rfl
    case uintv m =>
      cases hp : goParseUint t <;> rw [hp] at hparse <;> simp at hparse
      cases hparse; rfl
    case floatv x =>
      cases hp : goParseFloat t <;> rw [hp] at hparse <;> simp at hparse
      cases hparse; rfl
    case boolv b =>
      cases hp : goParseBool t <;> rw [hp] at hparse <;> simp at hparse
      cases hparse; rfl
  by_cases hzw : isDefault w = true
  · exact fillField_scalar_sets d n t w w htag hw hzw
      (setDefault_idem (path d n) (path d n) t v w hsc hparse)
  · rw [fillField_unfold, if_neg htag, if_neg hzw]

/-! ### The claims. -/

/-- C1: for every plain scalar field (string, signed/unsigned integer, float,
bool) carrying a non-empty tag whose current value is its type's zero value,
a successful `Struct` call sets the field to the tag text parsed per its
type's rule (the rule being `setDefault`: string verbatim, integers base-10,
floats, bools), and a second successful call leaves that field unchanged. -/
theorem c1_scalar_fill_and_idempotence
    (ez : GoValue) (fs fs' fs'' : List GoField) (i : Nat)
    (n t : String) (v w : GoValue)
    (hf : fs.get? i = some (n, t, v))
    (htag : t ≠ "") (hsc : isPlainScalar v = true) (hzero : isDefault v = true)
    (hparse : setDefault (path "" n) v t = (w, none))
    (h1 : Struct (.ptr ez (some (.structv fs))) defaultConfig
            = .ok (.ptr ez (some (.structv fs'))))
    (h2 : Struct (.ptr ez (some (.structv fs'))) defaultConfig
            = .ok (.ptr ez (some (.structv fs'')))) :
    fs'.get? i = some (n, t, w) ∧ fs''.get? i = some (n, t, w) := by
  have hrun : ∀ (gs gs' : List GoField),
      Struct (.ptr ez (some (.structv gs))) defaultConfig
        = .ok (.ptr ez (some (.structv gs'))) →
      gs' = (fillFields "" defaultConfig gs).1 ∧
        (fillFields "" defaultConfig gs).2 = none := by
    intro gs gs' h
    rw [Struct] at h
    by_cases hk : isStructKind ez = true
    · rw [if_pos hk] at h
      rw [fillStruct_structv] at h
      cases he : (fillFields "" defaultConfig gs).2 with
      | some e => rw [he] at h; simp at h
      | none =>
        rw [he] at h
        dsimp only at h
        rcases h with h
        injection h with h
        injection h with _ h
        injection h with h
        injection h with h
        exact ⟨h.symm, rfl⟩
    · rw [if_neg hk] at h
      simp at h
  obtain ⟨hfs', hok1⟩ := hrun fs fs' h1
  obtain ⟨hfs'', hok2⟩ := hrun fs' fs'' h2
  have hstep := fillField_scalar_sets "" n t v w htag hsc hzero hparse
  have hfs'i : fs'.get? i = some (n, t, w) := by
    rw [hfs', fillFields_none_get "" defaultConfig fs hok1 i, hf]
    simp [hstep]
  refine ⟨hfs'i, ?_⟩
  have hstep2 := fillField_scalar_idem "" n t v w htag hsc hzero hparse
  rw [hfs'', fillFields_none_get "" defaultConfig fs' hok2 i, hfs'i]
  simp [hstep2]

theorem c1_witness :
    ([("String", "hello", GoValue.str "hello"),
      ("Int", "1", GoValue.intv 1)] : List GoField).get? 1
        = some ("Int", "1", GoValue.intv 1) ∧
    ([("String", "hello", GoValue.str "hello"),
      ("Int", "1", GoValue.intv 1)] : List GoField).get? 1
        = some ("Int", "1", GoValue.intv 1) :=
  c1_scalar_fill_and_idempotence
    (.structv [])
    [("String", "hello", .str ""), ("Int", "1", .intv 0)]
    [("String", "hello", .str "hello"), ("Int", "1", .intv 1)]
    [("String", "hello", .str "hello"), ("Int", "1", .intv 1)]
    1 "Int" "1" (.intv 0) (.intv 1)
    rfl (by decide) rfl rfl rfl rfl rfl

/-- C2: a field whose tag is absent (empty string) is never modified by the
walk — whatever its current value, and without descending into it even when
it is a nested struct: the per-field step returns it verbatim, and the field
list after any walk (successful or aborted) carries it unchanged at its
position. -/
theorem c2_no_tag_never_touched
    (d : String) (cfg : Config) (fs : List GoField) (i : Nat)
    (n : String) (v : GoValue)
    (h : fs.get? i = some (n, "", v)) :
    (fillFields d cfg fs).1.get? i = some (n, "", v) ∧
    fillField d cfg (n, "", v) = ((n, "", v), none) := by
  refine ⟨?_, fillField_no_tag d cfg n v⟩
  induction fs generalizing i with
  | nil => simp at h
  | cons f rest ih =>
    rw [fillFields_cons]
    cases hf : (fillField d cfg f).2 with
    | some e =>
      dsimp only
      cases i with
      | zero =>
        simp only [List.get?] at h
        cases h
        rw [show (fillField d cfg (n, "", v)).1 = (n, "", v) from
          congrArg Prod.fst (fillField_no_tag d cfg n v)]
        rfl
      | succ j => simpa using h
    | none =>
      dsimp only
      cases i with
      | zero =>
        simp only [List.get?] at h
        cases h
        rw [show (fillField d cfg (n, "", v)).1 = (n, "", v) from
          congrArg Prod.fst (fillField_no_tag d cfg n v)]
        rfl
      | succ j =>
        simp only [List.get?] at h ⊢
        exact ih j h

theorem c2_witness :
    (fillFields "" defaultConfig
      [("IntWithoutTag", "", GoValue.intv 7),
       ("NestedIgnore", "", GoValue.structv [("String", "world", GoValue.str "")]),
       ("Int", "1", GoValue.intv 0)]).1.get? 1
        = some ("NestedIgnore", "", GoValue.structv [("String", "world", GoValue.str "")]) ∧
    fillField "" defaultConfig
      ("NestedIgnore", "", GoValue.structv [("String", "world", GoValue.str "")])
        = (("NestedIgnore", "", GoValue.structv [("String", "world", GoValue.str "")]), none) :=
  c2_no_tag_never_touched "" defaultConfig
    [("IntWithoutTag", "", .intv 7),
     ("NestedIgnore", "", .structv [("String", "world", .str "")]),
     ("Int", "1", .intv 0)]
    1 "NestedIgnore" (.structv [("String", "world", .str "")]) rfl

/-- C3 counterexample: a non-empty `[]byte` field is not let through by the
eligibility test, contrary to the claim — `isDefault` classifies slices by
`length == 0`, so a pre-set byte slice is skipped as ineligible before any
setter can report its no-op. -/
theorem c3_counterexample :
    preSet (GoValue.bytesv [86, 111]) = true ∧
    isDefault (GoValue.bytesv [86, 111]) = false := by
  exact ⟨rfl, rfl⟩

/-- C3 (amended): every field already holding a non-zero / non-empty value
that is not of nested-struct or generic-pointer shape is left unchanged by
the per-field step: scalars, `time.Duration` and slices (including `[]byte`)
are skipped as ineligible, while `time.Time`, `*url.URL` and pointer
`TextUnmarshaler` fields are let through by the eligibility test and their
setters report a no-op match without writing. -/
theorem c3_preset_left_unchanged (d n t : String) (v : GoValue)
    (hv : preSet v = true) :
    fillField d defaultConfig (n, t, v) = ((n, t, v), none) ∧
    isDefault v = eligibleWhenPreSet v := by
  by_cases htag : t = ""
  · subst htag
    refine ⟨fillField_no_tag d defaultConfig n v, ?_⟩
    cases v <;> simp [preSet] at hv <;> simp [isDefault, eligibleWhenPreSet, hv]
  · rw [fillField_unfold, if_neg htag]
    cases v with
    | str s0 =>
      simp [preSet] at hv
      simp [isDefault, eligibleWhenPreSet, hv]
    | intv i =>
      simp [preSet] at hv
      simp [isDefault, eligibleWhenPreSet, hv]
    | uintv m =>
      simp [preSet] at hv
      simp [isDefault, eligibleWhenPreSet, hv]
    | floatv x =>
      simp [preSet] at hv
      simp [isDefault, eligibleWhenPreSet, hv]
    | boolv b =>
      simp [preSet] at hv
      simp [isDefault, eligibleWhenPreSet, hv]
    | durv ns =>
      simp [preSet] at hv
      simp [isDefault, eligibleWhenPreSet, hv]
    | bytesv bs =>
      simp [preSet] at hv
      simp [isDefault, eligibleWhenPreSet, hv]
    | timev tm =>
      simp [preSet] at hv
      refine ⟨?_, rfl⟩
      simp [isDefault, fillSome, applySetters, runSetter, defaultConfig, DurationSetter,
        TimeSetter, hv]
    | urlv u =>
      simp [preSet] at hv
      obtain ⟨r, rfl⟩ := Option.isSome_iff_exists.mp hv
      refine ⟨?_, rfl⟩
      simp [isDefault, fillSome, applySetters, runSetter, defaultConfig, DurationSetter,
        TimeSetter, URLSetter]
    | bigIntPtr pv =>
      simp [preSet] at hv
      obtain ⟨r, rfl⟩ := Option.isSome_iff_exists.mp hv
      refine ⟨?_, rfl⟩
      simp [isDefault, fillSome, applySetters, runSetter, defaultConfig, DurationSetter,
        TimeSetter, URLSetter, ByteSliceSetter, TextUnmarshalerSetter]
    | ptr ez pv => simp [preSet] at hv
    | structv gs => simp [preSet] at hv
    | chanInt => simp [preSet] at hv

theorem c3_witness :
    fillField "" defaultConfig
      ("Time", "2025-01-10T17:20:00Z", GoValue.timev ⟨2024, 6, 1, 0, 0, 0⟩)
        = (("Time", "2025-01-10T17:20:00Z", GoValue.timev ⟨2024, 6, 1, 0, 0, 0⟩), none) ∧
    isDefault (GoValue.timev ⟨2024, 6, 1, 0, 0, 0⟩)
      = eligibleWhenPreSet (GoValue.timev ⟨2024, 6, 1, 0, 0, 0⟩) :=
  c3_preset_left_unchanged "" "Time" "2025-01-10T17:20:00Z"
    (.timev ⟨2024, 6, 1, 0, 0, 0⟩) rfl

/-- C4: a struct-typed or pointer-to-struct field with a non-empty tag is
always recursed into — the eligibility test returns true for struct and
pointer kinds whatever the current value, no registry setter matches them,
a nil pointer is first allocated as a fresh zero-valued instance
(`reflect.New`), and the result on the field is exactly the nested walk
driven by the nested struct's own per-field tags. -/
theorem c4_tagged_struct_always_dived (d n t : String)
    (gs hs : List GoField) (htag : t ≠ "") :
    fillField d defaultConfig (n, t, .structv gs)
      = ((n, t, .structv (fillFields (path d n) defaultConfig gs).1),
         (fillFields (path d n) defaultConfig gs).2) ∧
    fillField d defaultConfig (n, t, .ptr (.structv gs) none)
      = ((n, t, .ptr (.structv gs)
            (some (.structv (fillFields (path d n) defaultConfig gs).1))),
         (fillFields (path d n) defaultConfig gs).2) ∧
    fillField d defaultConfig (n, t, .ptr (.structv gs) (some (.structv hs)))
      = ((n, t, .ptr (.structv gs)
            (some (.structv (fillFields (path d n) defaultConfig hs).1))),
         (fillFields (path d n) defaultConfig hs).2) := by
  refine ⟨?_, ?_, ?_⟩
  · rw [fillField_unfold, if_neg htag]
    rfl
  · rw [fillField_unfold, if_neg htag]
    rfl
  · rw [fillField_unfold, if_neg htag]
    rfl

theorem c4_witness :
    fillField "" defaultConfig
      ("Nested", "dive", GoValue.structv [("String", "world", GoValue.str "galaxy")])
      = (("Nested", "dive",
          GoValue.structv
            (fillFields "Nested" defaultConfig
              [("String", "world", GoValue.str "galaxy")]).1),
         (fillFields "Nested" defaultConfig
            [("String", "world", GoValue.str "galaxy")]).2) ∧
    fillField "" defaultConfig
      ("NestedPtr", "dive",
        GoValue.ptr (.structv [("String", "world", GoValue.str "galaxy")]) none)
      = (("NestedPtr", "dive",
          GoValue.ptr (.structv [("String", "world", GoValue.str "galaxy")])
            (some (GoValue.structv
              (fillFields "NestedPtr" defaultConfig
                [("String", "world", GoValue.str "galaxy")]).1))),
         (fillFields "NestedPtr" defaultConfig
            [("String", "world", GoValue.str "galaxy")]).2) := by
  refine ⟨?_, ?_⟩
  · exact (c4_tagged_struct_always_dived "" "Nested" "dive"
      [("String", "world", .str "galaxy")] [] (by decide)).1
  · have h := (c4_tagged_struct_always_dived "" "NestedPtr" "dive"
      [("String", "world", .str "galaxy")] [] (by decide)).2.1
    exact h

/-- C5: an input whose static type is not pointer-to-struct (a scalar, a
slice, a struct passed by value, a pointer to a non-struct, ...) makes
`Struct` return `ErrNotPointer` with the argument untouched: the kind checks
run before any field is read or written. -/
theorem c5_not_pointer_rejected (input : GoValue) (cfg : Config)
    (h : isPtrToStruct input = false) :
    Struct input cfg = .fail input .notPointer := by
  cases input with
  | ptr ez pv =>
    simp only [isPtrToStruct] at h
    cases pv with
    | some pt => rw [Struct.eq_1, if_neg (by simp [h])]
    | none => rw [Struct.eq_2, if_neg (by simp [h])]
  | urlv u => simp [isPtrToStruct] at h
  | bigIntPtr pv => simp [isPtrToStruct] at h
  | str s0 => rfl
  | intv i => rfl
  | uintv m => rfl
  | floatv x => rfl
  | boolv b => rfl
  | durv ns => rfl
  | timev tm => rfl
  | bytesv bs => rfl
  | structv fs => rfl
  | chanInt => rfl

theorem c5_witness :
    Struct (GoValue.structv [("Int", "1", GoValue.intv 0)]) defaultConfig
      = .fail (GoValue.structv [("Int", "1", GoValue.intv 0)]) .notPointer :=
  c5_not_pointer_rejected (.structv [("Int", "1", .intv 0)]) defaultConfig rfl

/-- C6: when a field's tag text cannot be parsed for its type, the walk
stops at that first failure: every field filled before it keeps the value it
was given, the failing field and all fields declared after it are left as
they were, and the surfaced error is the per-field error.  For an int field
the error is the conversion failure naming the field's dotted path, the
offending text and the target type. -/
theorem c6_first_failure_stops_walk
    (d : String) (cfg : Config) (pre pre' post : List GoField)
    (n t : String) (v fv : GoValue) (e : GoError)
    (hpre : fillFields d cfg pre = (pre', none))
    (hfail : fillField d cfg (n, t, v) = ((n, t, fv), some e)) :
    fillFields d cfg (pre ++ (n, t, v) :: post)
      = (pre' ++ (n, t, fv) :: post, some e) ∧
    (d = "" →
      Struct (.ptr (.structv []) (some (.structv (pre ++ (n, t, v) :: post)))) cfg
        = .fail (.ptr (.structv []) (some (.structv (pre' ++ (n, t, fv) :: post)))) e) ∧
    (∀ (a : Int), t ≠ "" → a = 0 → goParseInt t = none →
      fillField d defaultConfig (n, t, .intv a)
        = ((n, t, .intv a), some (.conversionFailed (path d n) t "int"))) := by
  have hwalk : fillFields d cfg (pre ++ (n, t, v) :: post)
      = (pre' ++ (n, t, fv) :: post, some e) := by
    rw [fillFields_append d cfg pre pre' ((n, t, v) :: post) hpre,
      fillFields_cons, hfail]
  refine ⟨hwalk, ?_, ?_⟩
  · intro hd
    subst hd
    rw [Struct.eq_1, if_pos (show isStructKind (GoValue.structv []) = true from rfl)]
    simp only [fillStruct_structv, hwalk]
  · intro a htag ha hparse
    subst ha
    rw [fillField_unfold, if_neg htag,
      if_pos (show isDefault (GoValue.intv 0) = true from rfl)]
    have hns := applySetters_plainScalar (path d n) t (.intv 0) rfl
    simp [fillSome, hns, setDefault, hparse]

theorem c6_witness :
    fillFields "" defaultConfig
      [("String", "hello", GoValue.str ""),
       ("Int", "not-int", GoValue.intv 0),
       ("Uint", "9", GoValue.uintv 0)]
      = ([("String", "hello", GoValue.str "hello"),
          ("Int", "not-int", GoValue.intv 0),
          ("Uint", "9", GoValue.uintv 0)],
         some (.conversionFailed "Int" "not-int" "int")) ∧
    Struct (.ptr (.structv []) (some (.structv
        [("String", "hello", GoValue.str ""),
         ("Int", "not-int", GoValue.intv 0),
         ("Uint", "9", GoValue.uintv 0)]))) defaultConfig
      = .fail (.ptr (.structv []) (some (.structv
          [("String", "hello", GoValue.str "hello"),
           ("Int", "not-int", GoValue.intv 0),
           ("Uint", "9", GoValue.uintv 0)])))
          (.conversionFailed "Int" "not-int" "int") ∧
    fillField "" defaultConfig ("Int", "not-int", GoValue.intv 0)
      = (("Int", "not-int", GoValue.intv 0),
         some (.conversionFailed "Int" "not-int" "int")) := by
  have h := c6_first_failure_stops_walk "" defaultConfig
    [("String", "hello", .str "")] [("String", "hello", .str "hello")]
    [("Uint", "9", .uintv 0)]
    "Int" "not-int" (.intv 0) (.intv 0) (.conversionFailed "Int" "not-int" "int")
    rfl rfl
  exact ⟨h.1, h.2.1 rfl, h.2.2 0 (by decide) rfl rfl⟩

/-- C7: a tagged field of a kind outside the enumerated ones (`chan int`)
falls to the eligibility test's conservative default arm (eligible), no
registry setter matches it, and the built-in scalar setter's default arm
rejects it with the "no suitable default setter" error naming the field's
dotted path and its type. -/
theorem c7_unsupported_kind_rejected (d n t : String) (htag : t ≠ "") :
    isDefault .chanInt = true ∧
    applySetters (path d n) .chanInt t defaultConfig.setters = .noMatch ∧
    fillField d defaultConfig (n, t, .chanInt)
      = ((n, t, .chanInt), some (.unsupportedSetter (path d n) "chan int")) ∧
    Struct (.ptr (.structv []) (some (.structv [(n, t, .chanInt)]))) defaultConfig
      = .fail (.ptr (.structv []) (some (.structv [(n, t, .chanInt)])))
          (.unsupportedSetter n "chan int") := by
  refine ⟨rfl, rfl, ?_, ?_⟩
  · rw [fillField_unfold, if_neg htag]
    rfl
  · have hf : fillField "" defaultConfig (n, t, .chanInt)
        = ((n, t, .chanInt), some (.unsupportedSetter n "chan int")) := by
      rw [fillField_unfold, if_neg htag]
      rfl
    have hw : fillFields "" defaultConfig [(n, t, GoValue.chanInt)]
        = ([(n, t, GoValue.chanInt)], some (.unsupportedSetter n "chan int")) := by
      rw [fillFields_cons, hf]
    rw [Struct.eq_1, if_pos (show isStructKind (GoValue.structv []) = true from rfl)]
    simp only [fillStruct_structv, hw]

theorem c7_witness :
    isDefault .chanInt = true ∧
    applySetters "Unsupported" .chanInt "1" defaultConfig.setters = .noMatch ∧
    fillField "" defaultConfig ("Unsupported", "1", .chanInt)
      = (("Unsupported", "1", .chanInt),
         some (.unsupportedSetter "Unsupported" "chan int")) ∧
    Struct (.ptr (.structv []) (some (.structv [("Unsupported", "1", .chanInt)])))
        defaultConfig
      = .fail (.ptr (.structv []) (some (.structv [("Unsupported", "1", .chanInt)])))
          (.unsupportedSetter "Unsupported" "chan int") :=
  c7_unsupported_kind_rejected "" "Unsupported" "1" (by decide)

/-- C8: for a zero `time.Time` field, a tag containing a semicolon is split
there, the text before the semicolon being parsed with the layout after it;
without a semicolon the layout defaults to `time.RFC3339`. -/
theorem c8_time_custom_layout (d n t a b : String) (dt : DateTime)
    (hsplit : splitSemi t = [a, b])
    (hparse : goTimeParse b a = some dt) :
    fillField d defaultConfig (n, t, .timev DateTime.zero)
      = ((n, t, .timev dt), none) ∧
    (∀ (u : String) (du : DateTime), u ≠ "" → splitSemi u = [u] →
      goTimeParse rfc3339Layout u = some du →
      fillField d defaultConfig (n, u, .timev DateTime.zero)
        = ((n, u, .timev du), none)) := by
  constructor
  · have htag : t ≠ "" := by
      intro h
      rw [h, show splitSemi "" = [""] from rfl] at hsplit
      simp at hsplit
    rw [fillField_unfold, if_neg htag,
      if_pos (show isDefault (GoValue.timev DateTime.zero) = true from rfl)]
    simp [fillSome, applySetters, runSetter, defaultConfig, DurationSetter, TimeSetter,
      hsplit, hparse]
  · intro u du hu hsplit' hparse'
    rw [fillField_unfold, if_neg hu,
      if_pos (show isDefault (GoValue.timev DateTime.zero) = true from rfl)]
    simp [fillSome, applySetters, runSetter, defaultConfig, DurationSetter, TimeSetter,
      hsplit', hparse']

theorem c8_witness :
    fillField "" defaultConfig
      ("TimeWithLayout", "Fri, 10 Jan 2025 17:20:00 UTC;Mon, 02 Jan 2006 15:04:05 MST",
        GoValue.timev DateTime.zero)
      = (("TimeWithLayout", "Fri, 10 Jan 2025 17:20:00 UTC;Mon, 02 Jan 2006 15:04:05 MST",
          GoValue.timev ⟨2025, 1, 10, 17, 20, 0⟩), none) ∧
    fillField "" defaultConfig
      ("Time", "2025-01-10T17:20:00Z", GoValue.timev DateTime.zero)
      = (("Time", "2025-01-10T17:20:00Z", GoValue.timev ⟨2025, 1, 10, 17, 20, 0⟩), none) := by
  refine ⟨?_, ?_⟩
  · exact (c8_time_custom_layout "" "TimeWithLayout"
      "Fri, 10 Jan 2025 17:20:00 UTC;Mon, 02 Jan 2006 15:04:05 MST"
      "Fri, 10 Jan 2025 17:20:00 UTC" "Mon, 02 Jan 2006 15:04:05 MST"
      ⟨2025, 1, 10, 17, 20, 0⟩ rfl rfl).1
  · exact (c8_time_custom_layout "" "Time"
      "Fri, 10 Jan 2025 17:20:00 UTC;Mon, 02 Jan 2006 15:04:05 MST"
      "Fri, 10 Jan 2025 17:20:00 UTC" "Mon, 02 Jan 2006 15:04:05 MST"
      ⟨2025, 1, 10, 17, 20, 0⟩ rfl rfl).2
      "2025-01-10T17:20:00Z" ⟨2025, 1, 10, 17, 20, 0⟩ (by decide) rfl rfl

/-- Filling a plain-scalar pointee through the non-struct branch of the
walker: the pointee is eligible (zero), no registry setter matches a plain
scalar, and the built-in scalar setter writes the parsed value. -/
theorem fillStruct_scalar_pointee (p t : String) (ez w : GoValue)
    (hsc : isPlainScalar ez = true) (hzero : isDefault ez = true)
    (hparse : setDefault p ez t = (w, none)) :
    fillStruct p ez t defaultConfig = (w, none) := by
  have hns := applySetters_plainScalar p t ez hsc
  cases ez <;> simp [isPlainScalar] at hsc <;>
    simp [fillStruct, hns, hparse, hzero]

/-- C9: pointer-to-scalar fields are filled through the pointer branch of
the walker even though the spec's walker description does not cover them: a
nil pointer is allocated and its pointee set from the tag (by the built-in
scalar setter for plain scalar pointees, by the matching `DurationSetter`
for a `*time.Duration` pointee), while a non-nil pointer with a non-zero
pointee is left unchanged. -/
theorem c9_pointer_to_scalar (d n t : String) :
    (∀ (ez w : GoValue), t ≠ "" → isPlainScalar ez = true → isDefault ez = true →
      setDefault (path d n) ez t = (w, none) →
      fillField d defaultConfig (n, t, .ptr ez none)
        = ((n, t, .ptr ez (some w)), none)) ∧
    (∀ (dns : Int), t ≠ "" → goParseDuration t = some dns →
      fillField d defaultConfig (n, t, .ptr (.durv 0) none)
        = ((n, t, .ptr (.durv 0) (some (.durv dns))), none)) ∧
    (∀ (ez w : GoValue), t ≠ "" →
      (isPlainScalar w = true ∨ ∃ ns, w = .durv ns) → isDefault w = false →
      fillField d defaultConfig (n, t, .ptr ez (some w))
        = ((n, t, .ptr ez (some w)), none)) := by
  refine ⟨?_, ?_, ?_⟩
  · intro ez w htag hsc hzero hparse
    rw [fillField_unfold, if_neg htag,
      if_pos (show isDefault (GoValue.ptr ez none) = true from rfl)]
    have h := fillStruct_scalar_pointee (path d n) t ez w hsc hzero hparse
    simp [fillSome, applySetters_ptr, h]
  · intro dns htag hdur
    rw [fillField_unfold, if_neg htag,
      if_pos (show isDefault (GoValue.ptr (GoValue.durv 0) none) = true from rfl)]
    have hfs : fillStruct (path d n) (.durv 0) t defaultConfig = (.durv dns, none) := by
      simp [fillStruct, applySetters, runSetter, defaultConfig, DurationSetter, hdur,
        isDefault]
    simp [fillSome, applySetters_ptr, hfs]
  · intro ez w htag hw hzf
    rw [fillField_unfold, if_neg htag,
      if_pos (show isDefault (GoValue.ptr ez (some w)) = true from rfl)]
    have hfs : fillStruct (path d n) w t defaultConfig = (w, none) := by
      rcases hw with hw | ⟨ns, rfl⟩
      · cases w <;> simp [isPlainScalar] at hw <;> simp [fillStruct, hzf]
      · simp [fillStruct, hzf]
    simp [fillSome, applySetters_ptr, hfs]

theorem c9_witness :
    fillField "" defaultConfig ("ValuePtr", "1", .ptr (.intv 0) none)
      = (("ValuePtr", "1", .ptr (.intv 0) (some (.intv 1))), none) ∧
    fillField "" defaultConfig ("DurPtr", "1s", .ptr (.durv 0) none)
      = (("DurPtr", "1s", .ptr (.durv 0) (some (.durv 1000000000))), none) ∧
    fillField "" defaultConfig ("ValuePtr", "1", .ptr (.intv 0) (some (.intv 10)))
      = (("ValuePtr", "1", .ptr (.intv 0) (some (.intv 10))), none) := by
  refine ⟨?_, ?_, ?_⟩
  · exact (c9_pointer_to_scalar "" "ValuePtr" "1").1 (.intv 0) (.intv 1)
      (by decide) rfl rfl rfl
  · exact (c9_pointer_to_scalar "" "DurPtr" "1s").2.1 1000000000 (by decide) rfl
  · exact (c9_pointer_to_scalar "" "ValuePtr" "1").2.2 (.intv 0) (.intv 10)
      (by decide) (Or.inl rfl) rfl

/-- C10: the entry-point checks inspect only the argument's static type, so
a nil typed pointer to a struct type with at least one tagged field is not
rejected with `ErrNotPointer`; the walk proceeds and dereferences the nil
pointer — `value.Elem().Field(i)` at the first tagged field panics. -/
theorem c10_nil_pointer_dereferenced (es : List GoField) (cfg : Config)
    (h : hasTaggedField (.structv es) = true) :
    Struct (.ptr (.structv es) none) cfg = .panicked nilDerefMsg := by
  rw [Struct.eq_2,
    if_pos (show isStructKind (GoValue.structv es) = true from rfl), if_pos h]

theorem c10_witness :
    Struct (.ptr (.structv [("Int", "1", GoValue.intv 0)]) none) defaultConfig
      = .panicked nilDerefMsg :=
  c10_nil_pointer_dereferenced [("Int", "1", .intv 0)] defaultConfig rfl

end GoDefault
